import Mathlib

/-!
Shallow embedding of `src/router-engine/optimized_router.py` (the pure Python
routing pipeline of class `OptimizedRouter` together with `PricePredictor`).

Modelling conventions:
- Python floats (`fee_tier`, `price`, `liquidity`, impacts, weights, the
  slippage buffer, the random adjustment factors) are modelled as exact
  rationals `ℚ`; Python arbitrary-precision integers as `ℤ`.
- `int(x)` applied to a float truncates toward zero, modelled by `truncInt`.
- Integer amounts cross the `SwapStep`/`SwapRoute` boundary as decimal strings
  in the source (`str(n)` / `int(s)`), a bijection on integers; the model keeps
  them as `ℤ`.
- The `networkx.DiGraph` is an insertion-ordered mapping from directed node
  pairs to edge-attribute records; `add_edge` on an existing pair updates the
  named attributes in place and keeps any other attributes, modelled by
  `setEdge`. Python dicts (`self.pools`, `self.tokens`) are insertion-ordered
  association lists with in-place update (`dictInsert`, `registerToken`).
- `nx.shortest_simple_paths` enumerates the loopless paths from source to
  target in nondecreasing total weight; it is modelled as a depth-first
  enumeration of all simple paths in adjacency insertion order followed by a
  stable sort on total weight (`sortBy`, matching the stability of a
  deterministic Yen enumeration; order among equal-weight paths is a modelling
  choice and no theorem below depends on it). If source or target is not a
  graph node it raises `networkx.NodeNotFound`, which subclasses
  `NetworkXException` but not `NetworkXError`, so the handler
  `except (nx.NetworkXNoPath, nx.NetworkXError)` in `_k_shortest_paths` does
  not catch it and it escapes `find_routes`; this is modelled by
  `RouterErr.nodeNotFound`. An exhausted generator (`NetworkXNoPath`) is
  caught and yields `[]`, which coincides with an empty enumeration.
- `np.random.random()` draws inside `PricePredictor.adjust` are modelled by an
  explicit stream `rng : Nat → ℚ`, consumed one value per route in list order.
- The Rust engine branch of `find_routes` is dead when the `router_engine`
  module is absent; the model is the pure Python fallback.
-/

/-- Python `int(x)` on a float value: truncation toward zero. -/
def truncInt (q : ℚ) : ℤ := if 0 ≤ q then ⌊q⌋ else ⌈q⌉

/-- ASCII lowercase of one character, as Python `str.lower` acts on the ASCII
exchange tags appearing in the source. -/
def lowerChar (c : Char) : Char :=
  if ('A' ≤ c ∧ c ≤ 'Z') then Char.ofNat (c.toNat + 32) else c

/-- Python `str.lower` restricted to ASCII strings. -/
def lowerStr (s : String) : String := ⟨s.data.map lowerChar⟩

/-- Dataclass `Token` of the source. -/
structure Token where
  chain_id : ℤ
  address : String
  symbol : String
  decimals : ℤ
deriving DecidableEq

/-- Dataclass `Pool` of the source. -/
structure Pool where
  exchange : String
  token_a : Token
  token_b : Token
  fee_tier : ℚ
  reserve_a : ℤ
  reserve_b : ℤ
  price : ℚ
  liquidity : ℚ
deriving DecidableEq

/-- Dataclass `SwapStep` of the source; the decimal-string amounts are
modelled as the integers they encode. -/
structure SwapStep where
  exchange_id : String
  token_in : Token
  token_out : Token
  fee_tier : Option ℚ
  amount_in : ℤ
  amount_out_min : ℤ
deriving DecidableEq

/-- Dataclass `SwapRoute` of the source. -/
structure SwapRoute where
  steps : List SwapStep
  amount_in : ℤ
  expected_amount_out : ℤ
  price_impact : ℚ
  gas_estimate : ℤ
  risk_score : ℤ
deriving DecidableEq

/-- Attribute record of one directed edge, as populated by `add_pool`
(`pool_id` … `reserve_b`) and, after a search has run, by the preparation
loop of `_k_shortest_paths` (`price_impact`, `gas_cost`, `slippage`, absent
before the first search, hence `Option`). -/
structure EdgeData where
  pool_id : String
  exchange : String
  fee_tier : ℚ
  price : ℚ
  liquidity : ℚ
  reserve_a : ℤ
  reserve_b : ℤ
  price_impact : Option ℚ
  gas_cost : Option ℤ
  slippage : Option ℚ
deriving DecidableEq

/-- The `networkx.DiGraph` of the router: an insertion-ordered association
list from directed node pairs to edge attributes. -/
abbrev Graph := List ((String × String) × EdgeData)

/-- One hop of a candidate path as produced by `_k_shortest_paths`:
`(u, v, edge data)`. -/
abbrev Hop := String × String × EdgeData

/-- State of an `OptimizedRouter` instance: `self.graph`, `self.pools`,
`self.tokens`. -/
structure RouterState where
  graph : Graph
  pools : List (String × Pool)
  tokens : List (String × Token)
deriving DecidableEq

/-- A freshly constructed router. -/
def emptyRouter : RouterState := { graph := [], pools := [], tokens := [] }

/-- First-match lookup in an insertion-ordered association list
(Python dict access). -/
def alistGet {α : Type} : List (String × α) → String → Option α
  | [], _ => none
  | (k0, v) :: rest, k => if k0 = k then some v else alistGet rest k

/-- Python dict assignment `d[k] = v`: replace in place if the key exists,
append otherwise. -/
def dictInsert {α : Type} : List (String × α) → String → α → List (String × α)
  | [], k, v => [(k, v)]
  | (k0, v0) :: rest, k, v =>
    if k0 = k then (k, v) :: rest else (k0, v0) :: dictInsert rest k v

/-- The token-registry update of `add_pool`: add the token only when its key
is absent (`if key not in self.tokens`). -/
def registerToken : List (String × Token) → String → Token → List (String × Token)
  | [], k, t => [(k, t)]
  | (k0, t0) :: rest, k, t =>
    if k0 = k then (k0, t0) :: rest else (k0, t0) :: registerToken rest k t

/-- Lookup of the directed edge `(u, v)`. -/
def getEdge : Graph → String → String → Option EdgeData
  | [], _, _ => none
  | (k, e) :: rest, u, v => if k = (u, v) then some e else getEdge rest u v

/-- `DiGraph.add_edge(u, v, **attrs)`: update the attribute record in place
when the edge exists (the update function receives the old record), append a
fresh edge otherwise. -/
def setEdge : Graph → String → String → (Option EdgeData → EdgeData) → Graph
  | [], u, v, f => [((u, v), f none)]
  | (k, e) :: rest, u, v, f =>
    if k = (u, v) then ((u, v), f (some e)) :: rest
    else (k, e) :: setEdge rest u v f

/-- Token-registry key `f"{chain_id}_{address}"`. -/
def tokenKey (t : Token) : String := toString t.chain_id ++ "_" ++ t.address

/-- Pool key `f"{exchange}_{token_a.address}_{token_b.address}_{fee_tier}"`. -/
def poolIdStr (p : Pool) : String :=
  p.exchange ++ "_" ++ p.token_a.address ++ "_" ++ p.token_b.address ++ "_"
    ++ toString p.fee_tier

/-- Attribute update performed by one `add_edge` call of `add_pool`: the seven
pool attributes are (over)written, any search attributes already on the edge
are kept (`dict.update` semantics). -/
def setPoolFields (pid ex : String) (fee pr liq : ℚ) (ra rb : ℤ) :
    Option EdgeData → EdgeData
  | none => ⟨pid, ex, fee, pr, liq, ra, rb, none, none, none⟩
  | some e => ⟨pid, ex, fee, pr, liq, ra, rb, e.price_impact, e.gas_cost, e.slippage⟩

/-- `OptimizedRouter.add_pool` (lines 141–182): store the pool under its id,
register missing tokens, and write the two directed edges; the reverse edge
carries swapped reserves and the reciprocal price (`1.0 / pool.price`; the
source raises `ZeroDivisionError` when `pool.price == 0`, a case no theorem
below exercises, where the rational model yields `0`). -/
def add_pool (s : RouterState) (p : Pool) : RouterState :=
  { pools := dictInsert s.pools (poolIdStr p) p,
    tokens := registerToken (registerToken s.tokens (tokenKey p.token_a) p.token_a)
      (tokenKey p.token_b) p.token_b,
    graph := setEdge
      (setEdge s.graph (tokenKey p.token_a) (tokenKey p.token_b)
        (setPoolFields (poolIdStr p) p.exchange p.fee_tier p.price p.liquidity
          p.reserve_a p.reserve_b))
      (tokenKey p.token_b) (tokenKey p.token_a)
      (setPoolFields (poolIdStr p) p.exchange p.fee_tier (1 / p.price) p.liquidity
        p.reserve_b p.reserve_a) }

/-- `OptimizedRouter._calculate_price_impact` (lines 184–207). Note that the
`fee_tier` of the edge plays no part in it. -/
def calculate_price_impact (amount reserve_in reserve_out : ℤ) : ℚ :=
  if amount ≤ 0 ∨ reserve_in ≤ 0 ∨ reserve_out ≤ 0 then 1
  else
    let k : ℚ := (reserve_in : ℚ) * (reserve_out : ℚ)
    let new_reserve_in : ℚ := (reserve_in : ℚ) + (amount : ℚ)
    let new_reserve_out : ℚ := k / new_reserve_in
    let price_before : ℚ := (reserve_out : ℚ) / (reserve_in : ℚ)
    let price_after : ℚ := new_reserve_out / new_reserve_in
    max 0 (min 1 (1 - price_after / price_before))

/-- The `exchange_costs` table lookup of `_calculate_gas_cost`, with Python
`dict.get(exchange.lower(), 0)` defaulting to `0`. -/
def exchange_gas_adjust (ex : String) : ℤ :=
  if lowerStr ex = "uniswap" then 0
  else if lowerStr ex = "sushiswap" then 5000
  else if lowerStr ex = "curve" then -10000
  else if lowerStr ex = "balancer" then 15000
  else 0

/-- `OptimizedRouter._calculate_gas_cost` (lines 209–231). -/
def calculate_gas_cost (path_length : ℤ) (exchanges : List String) : ℤ :=
  100000 + (path_length - 1) * 70000 + (exchanges.map exchange_gas_adjust).sum

/-- Membership test of `exchange.lower()` in the reputable-exchange list of
`_calculate_risk_score`. -/
def reputable (ex : String) : Bool :=
  lowerStr ex == "uniswap" || lowerStr ex == "sushiswap"
    || lowerStr ex == "curve" || lowerStr ex == "balancer"

/-- Minimum of the `liquidity` attributes along a path
(`min(data.get('liquidity', 1e18) …)`; edges written by `add_pool` always
carry the attribute; Python `min` of an empty generator raises, a case that
never arises because candidate paths are nonempty). -/
def min_liquidity (path : List Hop) : ℚ :=
  match path.map (fun h => h.2.2.liquidity) with
  | [] => 0
  | x :: xs => xs.foldl min x

/-- `OptimizedRouter._calculate_risk_score` (lines 233–270). -/
def calculate_risk_score (path : List Hop) : ℤ :=
  let hop_count := path.length
  let base_risk : ℤ :=
    if hop_count = 1 then 1 else if hop_count = 2 then 2
    else if hop_count = 3 then 3 else 4
  let liquidity_factor : ℤ :=
    if min_liquidity path < 100000 then 2
    else if min_liquidity path < 1000000 then 1 else 0
  let exchange_factor : ℤ :=
    min 2 ((path.filter (fun h => !reputable h.2.2.exchange)).length : ℤ)
  min 5 (base_risk + liquidity_factor + exchange_factor)

/-- `OptimizedRouter._weight_function` (lines 272–288), with the
`data.get` defaults `0.01`, `100000`, `0.005`. -/
def weight_function (data : EdgeData) : ℚ :=
  (6 / 10) * data.price_impact.getD (1 / 100)
    + (3 / 10) * (((data.gas_cost.getD 100000 : ℤ) : ℚ) / 1000000)
    + (1 / 10) * data.slippage.getD (1 / 200)

/-- One iteration of the preparation loop of `_k_shortest_paths`
(lines 296–309): overwrite the three search attributes of the edge from the
search amount. -/
def prepEdge (amount : ℤ) (e : EdgeData) : EdgeData :=
  { e with
    price_impact := some (calculate_price_impact amount e.reserve_a e.reserve_b),
    gas_cost := some (calculate_gas_cost 1 [e.exchange]),
    slippage := some (1 / 200) }

/-- The whole preparation loop: every edge of the graph is rewritten. -/
def prepareGraph (g : Graph) (amount : ℤ) : Graph :=
  g.map (fun kv => (kv.1, prepEdge amount kv.2))

/-- Successor nodes of `u` in adjacency insertion order. -/
def successors (g : Graph) (u : String) : List String :=
  (g.filter (fun kv => kv.1.1 == u)).map (fun kv => kv.1.2)

/-- Node membership: the nodes of the graph are the endpoints of its edges
(every node of the source graph is introduced by `add_edge`). -/
def nodeMem (g : Graph) (x : String) : Bool :=
  g.any (fun kv => kv.1.1 == x || kv.1.2 == x)

/-- Depth-first enumeration of the simple paths from `u` to `tgt` avoiding
`visited`; the fuel argument exceeds the length of any simple path. -/
def simplePathsAux (g : Graph) (tgt : String) :
    Nat → String → List String → List (List String)
  | 0, _, _ => []
  | Nat.succ n, u, visited =>
    if u = tgt then [[u]]
    else
      ((successors g u).filter (fun v => !(visited.contains v))).flatMap
        (fun v => (simplePathsAux g tgt n v (v :: visited)).map (fun p => u :: p))

/-- All simple paths from `src` to `tgt`. -/
def simplePaths (g : Graph) (src tgt : String) : List (List String) :=
  simplePathsAux g tgt (2 * g.length + 1) src [src]

/-- Stable insertion: the new element `a` goes after every prefix element `b`
with `keep b a`. -/
def insertBy {α : Type} (keep : α → α → Bool) (a : α) : List α → List α
  | [] => [a]
  | b :: l => if keep b a then b :: insertBy keep a l else a :: b :: l

/-- Stable sort: elements are inserted left to right, so elements equivalent
under `keep` stay in input order (the stability of Python `sorted` and of the
Yen enumeration). -/
def sortBy {α : Type} (keep : α → α → Bool) (l : List α) : List α :=
  l.foldl (fun acc x => insertBy keep x acc) []

/-- Fallback edge record for the total-function lookup `(getEdge …).getD`;
never reached on paths enumerated from the graph. -/
def defaultEdgeData : EdgeData := ⟨"", "", 0, 1, 0, 0, 0, none, none, none⟩

/-- Pair the consecutive nodes of a path with their edge data
(`zip(path[:-1], path[1:])` plus `get_edge_data`). -/
def pathEdges (g : Graph) : List String → List Hop
  | u :: v :: rest => (u, v, (getEdge g u v).getD defaultEdgeData) :: pathEdges g (v :: rest)
  | _ => []

/-- Total weight of a node path under `_weight_function`. -/
def pathWeight (g : Graph) (p : List String) : ℚ :=
  ((pathEdges g p).map (fun h => weight_function h.2.2)).sum

/-- Errors that can escape the modelled pipeline. `nodeNotFound` models the
uncaught `networkx.NodeNotFound`; `unknownToken` is the error kind named by
the specification, which the implementation never constructs. -/
inductive RouterErr where
  | nodeNotFound
  | unknownToken
deriving DecidableEq

/-- `OptimizedRouter._k_shortest_paths` (lines 290–326): early `[]` on equal
endpoints, then the preparation loop mutates every edge, then the Yen
enumeration; a missing endpoint raises (uncaught) `NodeNotFound`; an empty
enumeration (caught `NetworkXNoPath`) yields `[]`. Returns the mutated graph
together with the outcome. -/
def k_shortest_paths (g : Graph) (token_in token_out : String) (amount : ℤ)
    (k : Nat) : Graph × Except RouterErr (List (List Hop)) :=
  if token_in = token_out then (g, Except.ok [])
  else
    let g2 := prepareGraph g amount
    if nodeMem g2 token_in && nodeMem g2 token_out then
      (g2, Except.ok
        (((sortBy (fun p q => decide (pathWeight g2 p ≤ pathWeight g2 q))
            (simplePaths g2 token_in token_out)).take k).map (pathEdges g2)))
    else (g2, Except.error RouterErr.nodeNotFound)

/-- Output of one hop of `_path_to_swap_route` (lines 344–352): the
constant-product formula on the raw input when both reserves are positive
(`fee_tier` is not applied), otherwise the price fallback. The source divides
by `reserve_in + current`, raising `ZeroDivisionError` when that is zero, a
case no theorem below exercises. -/
def simHopOutput (current : ℤ) (e : EdgeData) : ℤ :=
  if 0 < e.reserve_a ∧ 0 < e.reserve_b then
    truncInt ((e.reserve_b : ℚ)
      - ((e.reserve_a : ℚ) * (e.reserve_b : ℚ)) / ((e.reserve_a : ℚ) + (current : ℚ)))
  else truncInt ((current : ℚ) * e.price)

/-- Registry access `self.tokens[u]`; a missing key raises `KeyError` in the
source, never reached because path nodes are registered, and defaulted here. -/
def lookupToken (ts : List (String × Token)) (k : String) : Token :=
  (alistGet ts k).getD ⟨0, "", "", 0⟩

/-- The step-building loop of `_path_to_swap_route` (lines 334–369): returns
the emitted steps and the final `current_amount`. The slippage buffer is the
constant `0.005`. -/
def buildSteps (ts : List (String × Token)) : List Hop → ℤ → List SwapStep × ℤ
  | [], current => ([], current)
  | (u, v, e) :: rest, current =>
    let output := simHopOutput current e
    let min_output := truncInt ((output : ℚ) * (1 - 1 / 200))
    let tail := buildSteps ts rest output
    (⟨e.exchange, lookupToken ts u, lookupToken ts v, some e.fee_tier, current,
        min_output⟩ :: tail.1,
      tail.2)

/-- `OptimizedRouter._path_to_swap_route` (lines 328–383). The aggregate
`price_impact` sums the search-time `price_impact` attributes
(`data.get('price_impact', 0)`). -/
def path_to_swap_route (ts : List (String × Token)) (path : List Hop)
    (amount_in : ℤ) : SwapRoute :=
  let bs := buildSteps ts path amount_in
  { steps := bs.1,
    amount_in := amount_in,
    expected_amount_out := bs.2,
    price_impact := (path.map (fun h => h.2.2.price_impact.getD 0)).sum,
    gas_estimate := calculate_gas_cost (path.length : ℤ)
      (path.map (fun h => h.2.2.exchange)),
    risk_score := calculate_risk_score path }

/-- The per-route random tweak of `PricePredictor.adjust` (lines 121–125)
with draw `u`: multiply the expected output by `1.0 + (u - 0.5) * 0.01` and
truncate. -/
def tweakRoute (r : SwapRoute) (u : ℚ) : SwapRoute :=
  { r with
    expected_amount_out :=
      truncInt ((r.expected_amount_out : ℚ) * (1 + (u - 1 / 2) * (1 / 100))) }

/-- `PricePredictor.adjust` (lines 111–128): empty input returned unchanged;
otherwise each route is tweaked with the next random draw and the list is
sorted by `int(expected_amount_out)` descending (Python `sorted` with
`reverse=True` is stable). -/
def adjust (paths : List SwapRoute) (rng : Nat → ℚ) : List SwapRoute :=
  if paths.isEmpty then paths
  else
    sortBy (fun b a => decide (a.expected_amount_out ≤ b.expected_amount_out))
      ((paths.enum).map (fun ir => tweakRoute ir.2 (rng ir.1)))

/-- `OptimizedRouter.find_routes` (lines 385–432), pure Python fallback:
build the endpoint keys, search, return `[]` on no candidate paths, otherwise
simulate every path and pass the routes through the adjuster. The mutated
graph is threaded into the returned state. -/
def find_routes (s : RouterState) (token_in token_out : Token) (amount : ℤ)
    (rng : Nat → ℚ) : RouterState × Except RouterErr (List SwapRoute) :=
  let res := k_shortest_paths s.graph (tokenKey token_in) (tokenKey token_out)
    amount 5
  let s2 : RouterState := { s with graph := res.1 }
  match res.2 with
  | Except.error e => (s2, Except.error e)
  | Except.ok paths =>
    if paths.isEmpty then (s2, Except.ok [])
    else
      (s2, Except.ok
        (adjust (paths.map (fun p => path_to_swap_route s2.tokens p amount)) rng))

/-- Follows the spec sentences of §4.4 for one hop: `effective_in = current ·
(1 − fee_tier)`, `new_reserve_in = reserve_in + effective_in`, `output =
floor(reserve_out − (reserve_in · reserve_out) / new_reserve_in)`. Stated for
comparison with the source hop `simHopOutput`. -/
def specFeeHopOutput (current : ℤ) (fee : ℚ) (reserve_in reserve_out : ℤ) : ℤ :=
  ⌊(reserve_out : ℚ)
    - ((reserve_in : ℚ) * (reserve_out : ℚ))
      / ((reserve_in : ℚ) + (current : ℚ) * (1 - fee))⌋

/-- Malformedness of a pool in the words of the spec: equal tokens, a negative
reserve, or `fee_tier ∉ [0, 1)`. -/
def malformedPool (p : Pool) : Prop :=
  p.token_a = p.token_b ∨ p.reserve_a < 0 ∨ p.reserve_b < 0
    ∨ p.fee_tier < 0 ∨ 1 ≤ p.fee_tier

/-- Projection of a route to the data the adjuster must not touch: its steps
and its input amount. -/
def routeSkeleton (r : SwapRoute) : List SwapStep × ℤ := (r.steps, r.amount_in)

/-- Number of graph edges whose `pool_id` attribute is `pid`. -/
def edgesWithPool (g : Graph) (pid : String) : Nat :=
  (g.filter (fun kv => kv.2.pool_id == pid)).length

/-! Concrete data used by the counterexample and witness theorems below. -/

/-- Example token on chain 1 with address `A`; registry key `1_A`. -/
def tokA : Token := ⟨1, "A", "TKA", 18⟩

/-- Example token with address `B`. -/
def tokB : Token := ⟨1, "B", "TKB", 18⟩

/-- Example token with address `C`. -/
def tokC : Token := ⟨1, "C", "TKC", 18⟩

/-- Example token with address `D`. -/
def tokD : Token := ⟨1, "D", "TKD", 18⟩

/-- Example token with address `U`, never registered in any example state. -/
def tokU : Token := ⟨1, "U", "TKU", 18⟩

/-- Random stream whose draws are all `0.5`, making every adjustment factor
`1.0 + (0.5 - 0.5) * 0.01 = 1`. -/
def rngHalf : Nat → ℚ := fun _ => 1 / 2

/-- Random stream whose draws are all `1`, making every adjustment factor
`1.005`. -/
def rngOne : Nat → ℚ := fun _ => 1

/-- Pool A↔B with reserves 100/100 and `fee_tier = 0.5`. -/
def poolC1 : Pool := ⟨"uniswap", tokA, tokB, 1 / 2, 100, 100, 1, 1000000⟩

/-- Router holding only `poolC1`. -/
def stateC1 : RouterState := add_pool emptyRouter poolC1

/-- Pool A↔C with tiny reserves 1/1. -/
def poolC2a : Pool := ⟨"uniswap", tokA, tokC, 0, 1, 1, 1, 1000000⟩

/-- Pool C↔B with tiny reserves 1/1. -/
def poolC2b : Pool := ⟨"uniswap", tokC, tokB, 0, 1, 1, 1, 1000000⟩

/-- Router whose only A→B path is A→C→B through the two tiny pools; routing
1 unit makes the first hop output 0, so the second hop runs on input 0. -/
def stateC2 : RouterState := add_pool (add_pool emptyRouter poolC2a) poolC2b

/-- Malformed pool: equal tokens, negative reserves, and `fee_tier = 2`. -/
def poolBad : Pool := ⟨"uniswap", tokA, tokA, 2, -5, -7, 1, 0⟩

/-- Pool A↔B with both reserves zero. -/
def poolC5 : Pool := ⟨"uniswap", tokA, tokB, 0, 0, 0, 1, 1000000⟩

/-- Router holding only the zero-reserve pool. -/
def stateC5 : RouterState := add_pool emptyRouter poolC5

/-- Pool A↔C on curve with healthy reserves but tiny `liquidity = 10`
(risk factor +2). -/
def poolC6a : Pool := ⟨"curve", tokA, tokC, 0, 10000, 10000, 1, 10⟩

/-- Pool C↔B, the second hop of the risky path. -/
def poolC6b : Pool := ⟨"curve", tokC, tokB, 0, 10000, 10000, 1, 10⟩

/-- Pool A↔D with zero reserves (price fallback, impact 1) but high
liquidity. -/
def poolC6c : Pool := ⟨"uniswap", tokA, tokD, 0, 0, 0, 1, 10000000⟩

/-- Pool D↔B whose fallback price `0.833` makes the A→D→B output on input
1000 equal the A→C→B constant-product output 833. -/
def poolC6d : Pool := ⟨"uniswap", tokD, tokB, 0, 0, 0, 833 / 1000, 10000000⟩

/-- Router with two A→B paths of equal expected output 833: A→C→B has risk 4
and the smaller search weight, A→D→B has risk 2. -/
def stateC6 : RouterState :=
  add_pool (add_pool (add_pool (add_pool emptyRouter poolC6a) poolC6b) poolC6c)
    poolC6d

/-- Pool A↔B with reserves 100000/100000. -/
def poolC7 : Pool := ⟨"uniswap", tokA, tokB, 0, 100000, 100000, 1, 10000000⟩

/-- Router holding only `poolC7`; routing 1000 units yields raw output 990. -/
def stateC7 : RouterState := add_pool emptyRouter poolC7

/-- Pool A↔B on uniswap. -/
def poolC8a : Pool := ⟨"uniswap", tokA, tokB, 0, 100, 200, 2, 1000⟩

/-- A second pool on the same token pair, on sushiswap, hence with a distinct
pool id. -/
def poolC8b : Pool := ⟨"sushiswap", tokA, tokB, 0, 300, 400, 3, 1000⟩

/-- Router after upserting both pools: the `DiGraph` keeps a single edge per
directed pair, so the second upsert overwrites the edges of the first pool. -/
def stateC8 : RouterState := add_pool (add_pool emptyRouter poolC8a) poolC8b

/-- Pool C↔D, disconnected from the A–B component. -/
def poolCD : Pool := ⟨"uniswap", tokC, tokD, 0, 50, 50, 1, 1000⟩

/-- Router with two disconnected components A–B and C–D: both endpoints of an
A→C request are registered graph nodes but no path joins them. -/
def stateC4d : RouterState := add_pool (add_pool emptyRouter poolC1) poolCD

/-! Support lemmas about the dictionary and graph primitives. -/

theorem alistGet_dictInsert_self {α : Type} (d : List (String × α)) (k : String)
    (v : α) : alistGet (dictInsert d k v) k = some v := by
  induction d with
  | nil => simp [dictInsert, alistGet]
  | cons hd tl ih =>
    obtain ⟨k0, v0⟩ := hd
    by_cases h : k0 = k
    · simp [dictInsert, h, alistGet]
    · simp [dictInsert, h, alistGet, ih]

theorem dictInsert_idem {α : Type} (d : List (String × α)) (k : String) (v : α) :
    dictInsert (dictInsert d k v) k v = dictInsert d k v := by
  induction d with
  | nil => simp [dictInsert]
  | cons hd tl ih =>
    obtain ⟨k0, v0⟩ := hd
    by_cases h : k0 = k
    · simp [dictInsert, h]
    · simp [dictInsert, h, ih]

theorem registerToken_of_mem (ts : List (String × Token)) (k : String) (t : Token)
    (h : (alistGet ts k).isSome = true) : registerToken ts k t = ts := by
  induction ts with
  | nil => simp [alistGet] at h
  | cons hd tl ih =>
    obtain ⟨k0, t0⟩ := hd
    by_cases hk : k0 = k
    · simp [registerToken, hk]
    · simp only [alistGet, hk, if_neg, if_false] at h
      simp [registerToken, hk, ih h]

theorem alistGet_registerToken_isSome (ts : List (String × Token)) (k : String)
    (t : Token) : (alistGet (registerToken ts k t) k).isSome = true := by
  induction ts with
  | nil => simp [registerToken, alistGet]
  | cons hd tl ih =>
    obtain ⟨k0, t0⟩ := hd
    by_cases hk : k0 = k
    · simp [registerToken, hk, alistGet]
    · simp [registerToken, hk, alistGet, ih]

theorem alistGet_registerToken_mono (ts : List (String × Token)) (k k2 : String)
    (t2 : Token) (h : (alistGet ts k).isSome = true) :
    (alistGet (registerToken ts k2 t2) k).isSome = true := by
  induction ts with
  | nil => simp [alistGet] at h
  | cons hd tl ih =>
    obtain ⟨k0, t0⟩ := hd
    by_cases hk2 : k0 = k2
    · simpa [registerToken, hk2] using h
    · by_cases hk : k0 = k
      · subst hk
        simp [registerToken, hk2, alistGet]
      · simp only [alistGet, hk, if_neg, if_false] at h
        simp [registerToken, hk2, alistGet, hk, ih h]

theorem getEdge_setEdge_self (g : Graph) (u v : String)
    (f : Option EdgeData → EdgeData) :
    getEdge (setEdge g u v f) u v = some (f (getEdge g u v)) := by
  induction g with
  | nil => simp [setEdge, getEdge]
  | cons hd tl ih =>
    obtain ⟨k, e⟩ := hd
    by_cases hk : k = (u, v)
    · simp [setEdge, hk, getEdge]
    · simp [setEdge, hk, getEdge, ih]

theorem getEdge_setEdge_ne (g : Graph) (u v u2 v2 : String)
    (f : Option EdgeData → EdgeData) (h : ((u2, v2) : String × String) ≠ (u, v)) :
    getEdge (setEdge g u2 v2 f) u v = getEdge g u v := by
  induction g with
  | nil => simp [setEdge, getEdge, h]
  | cons hd tl ih =>
    obtain ⟨k, e⟩ := hd
    by_cases hk : k = (u2, v2)
    · subst hk
      simp [setEdge, getEdge, h]
    · simp [setEdge, hk, getEdge, ih]

theorem setEdge_setEdge_same (g : Graph) (u v : String)
    (f1 f2 : Option EdgeData → EdgeData) :
    setEdge (setEdge g u v f1) u v f2 = setEdge g u v (fun x => f2 (some (f1 x))) := by
  induction g with
  | nil => simp [setEdge]
  | cons hd tl ih =>
    obtain ⟨k, e⟩ := hd
    by_cases hk : k = (u, v)
    · simp [setEdge, hk]
    · simp [setEdge, hk, ih]

theorem setEdge_comm_of_present (g : Graph) (u1 v1 u2 v2 : String)
    (f1 f2 : Option EdgeData → EdgeData)
    (h1 : (getEdge g u1 v1).isSome = true)
    (hne : ((u1, v1) : String × String) ≠ (u2, v2)) :
    setEdge (setEdge g u2 v2 f2) u1 v1 f1 = setEdge (setEdge g u1 v1 f1) u2 v2 f2 := by
  induction g with
  | nil => simp [getEdge] at h1
  | cons hd tl ih =>
    obtain ⟨k, e⟩ := hd
    by_cases hk1 : k = (u1, v1)
    · subst hk1
      simp [setEdge, hne, Ne.symm hne]
    · by_cases hk2 : k = (u2, v2)
      · subst hk2
        simp [setEdge, hk1, Ne.symm hne]
      · have h1tl : (getEdge tl u1 v1).isSome = true := by
          simpa [getEdge, hk1] using h1
        simp [setEdge, hk1, hk2, ih h1tl]

theorem setPoolFields_absorb (pid ex : String) (fee pr liq : ℚ) (ra rb : ℤ)
    (pid2 ex2 : String) (fee2 pr2 liq2 : ℚ) (ra2 rb2 : ℤ) (x : Option EdgeData) :
    setPoolFields pid ex fee pr liq ra rb
        (some (setPoolFields pid2 ex2 fee2 pr2 liq2 ra2 rb2 x))
      = setPoolFields pid ex fee pr liq ra rb x := by
  cases x <;> rfl

theorem setPoolFields_pool_id (pid ex : String) (fee pr liq : ℚ) (ra rb : ℤ)
    (x : Option EdgeData) : (setPoolFields pid ex fee pr liq ra rb x).pool_id = pid := by
  cases x <;> rfl

theorem setPoolFields_price (pid ex : String) (fee pr liq : ℚ) (ra rb : ℤ)
    (x : Option EdgeData) : (setPoolFields pid ex fee pr liq ra rb x).price = pr := by
  cases x <;> rfl

theorem setPoolFields_reserve_a (pid ex : String) (fee pr liq : ℚ) (ra rb : ℤ)
    (x : Option EdgeData) : (setPoolFields pid ex fee pr liq ra rb x).reserve_a = ra := by
  cases x <;> rfl

theorem setPoolFields_reserve_b (pid ex : String) (fee pr liq : ℚ) (ra rb : ℤ)
    (x : Option EdgeData) : (setPoolFields pid ex fee pr liq ra rb x).reserve_b = rb := by
  cases x <;> rfl

theorem setEdge_four_idem (g : Graph) (a b : String)
    (F R : Option EdgeData → EdgeData)
    (hF : ∀ x, F (some (F x)) = F x)
    (hR : ∀ x, R (some (R x)) = R x)
    (hFR : ∀ x, F (some (R x)) = F x) :
    setEdge (setEdge (setEdge (setEdge g a b F) b a R) a b F) b a R
      = setEdge (setEdge g a b F) b a R := by
  by_cases hab : a = b
  · subst hab
    simp only [setEdge_setEdge_same]
    congr 1
    funext x
    simp only [hFR, hF]
  · have hne : ((a, b) : String × String) ≠ (b, a) := by
      intro hcon
      exact hab (congrArg Prod.fst hcon)
    have hpres : (getEdge (setEdge g a b F) a b).isSome = true := by
      rw [getEdge_setEdge_self]
      rfl
    rw [setEdge_comm_of_present (setEdge g a b F) a b b a F R hpres hne]
    rw [setEdge_setEdge_same g a b F F]
    have hFF : (fun x => F (some (F x))) = F := funext hF
    rw [hFF]
    rw [setEdge_setEdge_same (setEdge g a b F) b a R R]
    have hRR : (fun x => R (some (R x))) = R := funext hR
    rw [hRR]

/-! Support lemmas about the stable sort. -/

theorem insertBy_perm {α : Type} (keep : α → α → Bool) (a : α) (l : List α) :
    (insertBy keep a l).Perm (a :: l) := by
  induction l with
  | nil => simp [insertBy]
  | cons b tl ih =>
    by_cases h : keep b a = true
    · simp only [insertBy, h, if_true]
      exact (ih.cons b).trans (List.Perm.swap a b tl)
    · simp [insertBy, h]

theorem foldl_insertBy_perm {α : Type} (keep : α → α → Bool) :
    ∀ (l acc : List α),
      (l.foldl (fun acc2 x => insertBy keep x acc2) acc).Perm (l ++ acc)
  | [], acc => by simp
  | a :: l, acc => by
    simp only [List.foldl_cons]
    refine (foldl_insertBy_perm keep l (insertBy keep a acc)).trans ?_
    refine (List.Perm.append_left l (insertBy_perm keep a acc)).trans ?_
    exact List.perm_middle

theorem sortBy_perm {α : Type} (keep : α → α → Bool) (l : List α) :
    (sortBy keep l).Perm l := by
  simpa [sortBy] using foldl_insertBy_perm keep l []

theorem pairwise_insertBy {α : Type} {R : α → α → Prop} (keep : α → α → Bool)
    (hkt : ∀ x y, keep x y = true → R x y)
    (hkf : ∀ x y, keep x y = false → R y x)
    (htrans : ∀ x y z, R x y → R y z → R x z)
    (a : α) (l : List α) (hl : l.Pairwise R) :
    (insertBy keep a l).Pairwise R := by
  induction l with
  | nil => simp [insertBy]
  | cons b tl ih =>
    rcases List.pairwise_cons.mp hl with ⟨hb, htl⟩
    by_cases h : keep b a = true
    · simp only [insertBy, h, if_true]
      refine List.pairwise_cons.mpr ⟨?_, ih htl⟩
      intro x hx
      rcases List.mem_cons.mp ((insertBy_perm keep a tl).mem_iff.mp hx) with hx2 | hx2
      · exact hx2 ▸ hkt b a h
      · exact hb x hx2
    · have h2 : keep b a = false := by
        simpa using h
      simp only [insertBy, h2, Bool.false_eq_true, if_false]
      have hab : R a b := hkf b a h2
      refine List.pairwise_cons.mpr ⟨?_, hl⟩
      intro x hx
      rcases List.mem_cons.mp hx with hx2 | hx2
      · exact hx2 ▸ hab
      · exact htrans a b x hab (hb x hx2)

theorem pairwise_sortBy {α : Type} {R : α → α → Prop} (keep : α → α → Bool)
    (hkt : ∀ x y, keep x y = true → R x y)
    (hkf : ∀ x y, keep x y = false → R y x)
    (htrans : ∀ x y z, R x y → R y z → R x z)
    (l : List α) : (sortBy keep l).Pairwise R := by
  suffices hgen : ∀ (l2 acc : List α), acc.Pairwise R →
      (l2.foldl (fun acc2 x => insertBy keep x acc2) acc).Pairwise R by
    exact hgen l [] List.Pairwise.nil
  intro l2
  induction l2 with
  | nil => intro acc hacc; simpa using hacc
  | cons a tl ih =>
    intro acc hacc
    simp only [List.foldl_cons]
    exact ih (insertBy keep a acc) (pairwise_insertBy keep hkt hkf htrans a acc hacc)

/-! Support lemmas about the adjuster and the simulation loop. -/

theorem adjust_length (paths : List SwapRoute) (rng : Nat → ℚ) :
    (adjust paths rng).length = paths.length := by
  unfold adjust
  by_cases h : paths.isEmpty
  · simp [h]
  · simp only [h, Bool.false_eq_true, if_false]
    rw [(sortBy_perm _ _).length_eq]
    simp

theorem adjust_skeleton_perm (paths : List SwapRoute) (rng : Nat → ℚ) :
    ((adjust paths rng).map routeSkeleton).Perm (paths.map routeSkeleton) := by
  unfold adjust
  by_cases h : paths.isEmpty
  · simp [h]
  · simp only [h, Bool.false_eq_true, if_false]
    refine ((sortBy_perm _ _).map routeSkeleton).trans ?_
    rw [List.map_map]
    have hcomp :
        (routeSkeleton ∘ fun ir : Nat × SwapRoute => tweakRoute ir.2 (rng ir.1))
          = fun ir : Nat × SwapRoute => routeSkeleton ir.2 := by
      funext ir
      rfl
    rw [hcomp]
    have hsnd : (paths.enum.map (fun ir : Nat × SwapRoute => routeSkeleton ir.2))
        = paths.map routeSkeleton := by
      rw [show (fun ir : Nat × SwapRoute => routeSkeleton ir.2)
          = routeSkeleton ∘ Prod.snd from rfl]
      rw [← List.map_map, List.enum_map_snd]
    rw [hsnd]

theorem buildSteps_snd (ts : List (String × Token)) (path : List Hop) :
    ∀ c : ℤ, (buildSteps ts path c).2
      = path.foldl (fun current h => simHopOutput current h.2.2) c := by
  induction path with
  | nil => intro c; rfl
  | cons hd tl ih =>
    intro c
    obtain ⟨u, v, e⟩ := hd
    simp [buildSteps, ih]

theorem nodeMem_prepareGraph (g : Graph) (amount : ℤ) (x : String) :
    nodeMem (prepareGraph g amount) x = nodeMem g x := by
  unfold nodeMem prepareGraph
  rw [List.any_map]
  rfl

theorem successors_cons (kv : (String × String) × EdgeData) (g : Graph) (u : String) :
    successors (kv :: g) u
      = if kv.1.1 == u then kv.1.2 :: successors g u else successors g u := by
  by_cases h : kv.1.1 == u <;> simp [successors, List.filter_cons, h]

theorem successors_prepareGraph (g : Graph) (amt : ℤ) (u : String) :
    successors (prepareGraph g amt) u = successors g u := by
  induction g with
  | nil => rfl
  | cons hd tl ih =>
    simp only [prepareGraph, List.map_cons] at *
    rw [successors_cons, successors_cons, ih]

theorem simplePathsAux_congr (g1 g2 : Graph) (tgt : String)
    (h : ∀ u, successors g1 u = successors g2 u) :
    ∀ (fuel : Nat) (u : String) (visited : List String),
      simplePathsAux g1 tgt fuel u visited = simplePathsAux g2 tgt fuel u visited := by
  intro fuel
  induction fuel with
  | zero => intro u visited; rfl
  | succ n ih =>
    intro u visited
    simp only [simplePathsAux, h]
    by_cases hu : u = tgt
    · simp [hu]
    · simp only [hu, if_false]
      congr 1
      funext v
      rw [ih]

theorem simplePaths_prepareGraph (g : Graph) (amt : ℤ) (src tgt : String) :
    simplePaths (prepareGraph g amt) src tgt = simplePaths g src tgt := by
  unfold simplePaths
  rw [show (prepareGraph g amt).length = g.length by simp [prepareGraph]]
  exact simplePathsAux_congr _ _ tgt (fun u => successors_prepareGraph g amt u) _ _ _

/-! Claim C1. -/

/-- C1 counterexample: in `stateC1` the only pool has `fee_tier = 0.5` and
reserves 100/100; routing 100 units, the implementation returns expected
output 50 = trunc(100 − 100·100/(100+100)), the fee-less formula, while the
formula claimed by C1 (fee applied to the hop input) gives
floor(100 − 100·100/(100 + 100·(1−0.5))) = 33. -/
theorem C1_counterexample :
    Except.map (fun rs => rs.map SwapRoute.expected_amount_out)
      (find_routes stateC1 tokA tokB 100 rngHalf).2 = Except.ok [50]
    ∧ specFeeHopOutput 100 (1 / 2) 100 100 = 33
    ∧ (33 : ℤ) ≠ 50 := by
  refine ⟨?_, ?_, by decide⟩
  · norm_num +decide [find_routes, k_shortest_paths, prepareGraph, prepEdge,
      calculate_price_impact, calculate_gas_cost, exchange_gas_adjust, lowerStr,
      lowerChar, nodeMem, successors, simplePaths, simplePathsAux, sortBy,
      insertBy, pathEdges, pathWeight, weight_function, getEdge, setEdge,
      defaultEdgeData, path_to_swap_route, buildSteps, simHopOutput, truncInt,
      lookupToken, alistGet, adjust, tweakRoute, add_pool, setPoolFields,
      tokenKey, stateC1, poolC1, emptyRouter, tokA, tokB, rngHalf,
      List.enum, List.enumFrom, calculate_risk_score, min_liquidity, reputable,
      Except.map]
  · norm_num [specFeeHopOutput]

/-- C1 amended: the route simulation threads each hop through `simHopOutput`,
which for positive reserves computes
`trunc(reserve_out − reserve_in·reserve_out/(reserve_in + current))` on the
raw input — the `fee_tier` is never applied — and otherwise falls back to
`trunc(current · price)`. -/
theorem C1_theorem (ts : List (String × Token)) (path : List Hop) (amount : ℤ) :
    (path_to_swap_route ts path amount).expected_amount_out
      = path.foldl (fun current h => simHopOutput current h.2.2) amount := by
  simp [path_to_swap_route, buildSteps_snd]

/-! Claim C2. -/

/-- C2 counterexample: in `stateC2` the single candidate path A→C→B routes
input 1 to 0 after the first hop, so its second hop runs with `current = 0`;
the route is nevertheless returned by `find_routes` (step inputs `[1, 0]`,
expected output 0) instead of being aborted and excluded. -/
theorem C2_counterexample :
    Except.map
        (fun rs => rs.map (fun r => (r.steps.map SwapStep.amount_in,
          r.expected_amount_out)))
      (find_routes stateC2 tokA tokB 1 rngHalf).2 = Except.ok [([1, 0], 0)] := by
  norm_num +decide [find_routes, k_shortest_paths, prepareGraph, prepEdge,
    calculate_price_impact, calculate_gas_cost, exchange_gas_adjust, lowerStr,
    lowerChar, nodeMem, successors, simplePaths, simplePathsAux, sortBy,
    insertBy, pathEdges, pathWeight, weight_function, getEdge, setEdge,
    defaultEdgeData, path_to_swap_route, buildSteps, simHopOutput, truncInt,
    lookupToken, alistGet, adjust, tweakRoute, add_pool, setPoolFields,
    tokenKey, stateC2, poolC2a, poolC2b, emptyRouter, tokA, tokB, tokC, rngHalf,
    List.enum, List.enumFrom, calculate_risk_score, min_liquidity, reputable,
    Except.map]

/-- C2 amended: the simulation stage never drops a route — for every input the
number of routes returned by `find_routes` equals the number of candidate
paths produced by the search (and errors propagate unchanged). -/
theorem C2_theorem (s : RouterState) (a b : Token) (amount : ℤ) (rng : Nat → ℚ) :
    Except.map List.length (find_routes s a b amount rng).2
      = Except.map List.length
          (k_shortest_paths s.graph (tokenKey a) (tokenKey b) amount 5).2 := by
  cases hres : (k_shortest_paths s.graph (tokenKey a) (tokenKey b) amount 5).2 with
  | error e => simp [find_routes, hres, Except.map]
  | ok paths =>
    by_cases hp : paths.isEmpty
    · have hnil : paths = [] := List.isEmpty_iff.mp hp
      subst hnil
      simp [find_routes, hres, Except.map]
    · simp [find_routes, hres, hp, adjust_length, Except.map]

/-! Claim C3. -/

/-- C3 counterexample: `poolBad` is malformed in all three ways the claim
lists (equal tokens, negative reserves, `fee_tier = 2 ∉ [0,1)`), yet
`add_pool` accepts it silently: it lands in the pool table and the graph is
mutated; no `InvalidPool` failure exists in the code (`add_pool` is total). -/
theorem C3_counterexample :
    alistGet (add_pool emptyRouter poolBad).pools (poolIdStr poolBad) = some poolBad
    ∧ (add_pool emptyRouter poolBad).pools ≠ emptyRouter.pools
    ∧ (add_pool emptyRouter poolBad).graph ≠ emptyRouter.graph := by
  refine ⟨?_, ?_, ?_⟩
  · simpa [add_pool] using
      alistGet_dictInsert_self emptyRouter.pools (poolIdStr poolBad) poolBad
  · simp [add_pool, dictInsert, emptyRouter]
  · simp +decide [add_pool, setEdge, emptyRouter, tokenKey, poolBad, tokA]

/-- C3 amended: `add_pool` performs no validation at all — every pool,
malformed or not, is stored in the pool table under its id. -/
theorem C3_theorem (s : RouterState) (p : Pool) (_h : malformedPool p) :
    alistGet (add_pool s p).pools (poolIdStr p) = some p := by
  simpa [add_pool] using alistGet_dictInsert_self s.pools (poolIdStr p) p

/-- C3 witness: `poolBad` is malformed and is stored anyway. -/
theorem C3_witness :
    malformedPool poolBad
    ∧ alistGet (add_pool emptyRouter poolBad).pools (poolIdStr poolBad)
        = some poolBad :=
  ⟨Or.inl rfl, C3_theorem emptyRouter poolBad (Or.inl rfl)⟩

/-! Claim C4. -/

/-- C4 counterexample: requesting routes from the unregistered token `tokU`
makes `find_routes` fail with the uncaught networkx `NodeNotFound` error, not
with the `UnknownToken` error kind the claim names. -/
theorem C4_counterexample :
    (find_routes stateC1 tokU tokB 5 rngHalf).2 = Except.error RouterErr.nodeNotFound
    ∧ RouterErr.nodeNotFound ≠ RouterErr.unknownToken := by
  constructor
  · norm_num +decide [find_routes, k_shortest_paths, prepareGraph, prepEdge,
      nodeMem, add_pool, setEdge, setPoolFields, tokenKey, stateC1, poolC1,
      emptyRouter, tokA, tokB, tokU]
  · decide

/-- C4 amended: equal endpoint keys return the empty list; both endpoints
present in the graph but joined by no simple path also returns the empty list
(not an error); a missing endpoint makes `find_routes` propagate the generic
graph error `NodeNotFound` (never an `UnknownToken` error, which the
implementation does not have). -/
theorem C4_theorem (s : RouterState) (a b : Token) (amount : ℤ) (rng : Nat → ℚ) :
    (tokenKey a = tokenKey b → (find_routes s a b amount rng).2 = Except.ok [])
    ∧ ((nodeMem s.graph (tokenKey a) = false
          ∨ nodeMem s.graph (tokenKey b) = false) →
        tokenKey a ≠ tokenKey b →
        (find_routes s a b amount rng).2 = Except.error RouterErr.nodeNotFound)
    ∧ (nodeMem s.graph (tokenKey a) = true → nodeMem s.graph (tokenKey b) = true →
        simplePaths s.graph (tokenKey a) (tokenKey b) = [] →
        (find_routes s a b amount rng).2 = Except.ok []) := by
  refine ⟨?_, ?_, ?_⟩
  · intro h
    simp [find_routes, k_shortest_paths, h]
  · intro hmem hne
    have h1 : (nodeMem (prepareGraph s.graph amount) (tokenKey a)
        && nodeMem (prepareGraph s.graph amount) (tokenKey b)) = false := by
      rcases hmem with h | h <;> simp [nodeMem_prepareGraph, h]
    simp [find_routes, k_shortest_paths, hne, h1]
  · intro hna hnb hnopath
    by_cases heq : tokenKey a = tokenKey b
    · simp [find_routes, k_shortest_paths, heq]
    · have hn : (nodeMem (prepareGraph s.graph amount) (tokenKey a)
          && nodeMem (prepareGraph s.graph amount) (tokenKey b)) = true := by
        simp [nodeMem_prepareGraph, hna, hnb]
      have hsp : simplePaths (prepareGraph s.graph amount) (tokenKey a) (tokenKey b)
          = [] := by
        rw [simplePaths_prepareGraph, hnopath]
      simp [find_routes, k_shortest_paths, heq, hn, hsp, sortBy]

/-- C4 witness: the three branches of `C4_theorem` at concrete inputs — equal
endpoints on `stateC1`, a missing endpoint on `stateC1`, and the disconnected
pair A, C of `stateC4d` (both registered, no path, empty list and no error). -/
theorem C4_witness :
    (find_routes stateC1 tokA tokA 5 rngHalf).2 = Except.ok []
    ∧ (find_routes stateC1 tokU tokB 5 rngHalf).2
        = Except.error RouterErr.nodeNotFound
    ∧ (find_routes stateC4d tokA tokC 5 rngHalf).2 = Except.ok [] :=
  ⟨(C4_theorem stateC1 tokA tokA 5 rngHalf).1 rfl,
   (C4_theorem stateC1 tokU tokB 5 rngHalf).2.1 (Or.inl (by decide)) (by decide),
   (C4_theorem stateC4d tokA tokC 5 rngHalf).2.2 (by decide) (by decide) (by decide)⟩

/-! Claim C5. -/

/-- C5 counterexample: the zero-reserve edge of `stateC5` gets price impact 1
during preparation but is not excluded — the search returns the candidate
path through it, contradicting the exclusion half of the claim. -/
theorem C5_counterexample :
    Except.map (fun ps => ps.map (fun p => p.map
        (fun h => (h.1, h.2.1, h.2.2.reserve_a, h.2.2.reserve_b,
          h.2.2.price_impact))))
      (k_shortest_paths stateC5.graph "1_A" "1_B" 10 5).2
    = Except.ok [[("1_A", "1_B", 0, 0, some 1)]] := by
  norm_num +decide [k_shortest_paths, prepareGraph, prepEdge,
    calculate_price_impact, calculate_gas_cost, exchange_gas_adjust, lowerStr,
    lowerChar, nodeMem, successors, simplePaths, simplePathsAux, sortBy,
    insertBy, pathEdges, pathWeight, weight_function, getEdge, setEdge,
    defaultEdgeData, truncInt, add_pool, setPoolFields,
    tokenKey, stateC5, poolC5, emptyRouter, tokA, tokB, Except.map]

/-- C5 amended: during graph preparation an edge with a non-positive reserve
(or a non-positive search amount) is assigned price impact exactly 1; it is
not removed from the search. -/
theorem C5_theorem (amount : ℤ) (e : EdgeData)
    (h : amount ≤ 0 ∨ e.reserve_a ≤ 0 ∨ e.reserve_b ≤ 0) :
    (prepEdge amount e).price_impact = some 1 := by
  simp [prepEdge, calculate_price_impact, h]

/-- C5 witness: `C5_theorem` at a concrete zero-reserve edge. -/
theorem C5_witness :
    ((10 : ℤ) ≤ 0 ∨ defaultEdgeData.reserve_a ≤ 0 ∨ defaultEdgeData.reserve_b ≤ 0)
    ∧ (prepEdge 10 defaultEdgeData).price_impact = some 1 :=
  ⟨by decide, C5_theorem 10 defaultEdgeData (by decide)⟩

/-! Claim C6. -/

set_option maxHeartbeats 4000000 in
/-- C6 counterexample: in `stateC6` the two candidate A→B paths both yield
expected output 833 after the identity-factor adjustment (`rngHalf`), but the
route with risk score 4 is returned before the route with risk score 2 —
the final order keeps the search order on ties, so risk score is not a
tie-breaker (nor is gas). -/
theorem C6_counterexample :
    Except.map (fun rs => rs.map (fun r => (r.expected_amount_out, r.risk_score)))
      (find_routes stateC6 tokA tokB 1000 rngHalf).2
    = Except.ok [(833, 4), (833, 2)] := by
  norm_num +decide [find_routes, k_shortest_paths, prepareGraph, prepEdge,
    calculate_price_impact, calculate_gas_cost, exchange_gas_adjust, lowerStr,
    lowerChar, nodeMem, successors, simplePaths, simplePathsAux, sortBy,
    insertBy, pathEdges, pathWeight, weight_function, getEdge, setEdge,
    defaultEdgeData, path_to_swap_route, buildSteps, simHopOutput, truncInt,
    lookupToken, alistGet, adjust, tweakRoute, add_pool, setPoolFields,
    tokenKey, stateC6, poolC6a, poolC6b, poolC6c, poolC6d, emptyRouter,
    tokA, tokB, tokC, tokD, rngHalf,
    List.enum, List.enumFrom, calculate_risk_score, min_liquidity, reputable,
    Except.map]

/-- C6 amended: the list returned by the adjuster — and hence by
`find_routes` — is sorted by the (adjusted) `expected_amount_out` in
descending order only; equal outputs keep their pre-sort order, and
`risk_score` and `gas_estimate` play no part in the ordering. -/
theorem C6_theorem (paths : List SwapRoute) (rng : Nat → ℚ) :
    (adjust paths rng).Pairwise
      (fun a b => b.expected_amount_out ≤ a.expected_amount_out) := by
  unfold adjust
  by_cases h : paths.isEmpty
  · have hnil : paths = [] := List.isEmpty_iff.mp h
    subst hnil
    simp
  · simp only [h, Bool.false_eq_true, if_false]
    refine pairwise_sortBy _ ?_ ?_ ?_ _
    · intro x y hxy
      exact of_decide_eq_true hxy
    · intro x y hxy
      exact le_of_not_le (of_decide_eq_false hxy)
    · intro x y z h1 h2
      exact le_trans h2 h1

/-! Claim C7. -/

/-- C7 counterexample: two `find_routes` calls on the same state with the same
arguments return different route lists when the random draws of the adjuster
differ (draw 0.5 leaves 990; draw 1 scales by 1.005 to 994), so a call is not
a deterministic function of graph and arguments alone. -/
theorem C7_counterexample :
    Except.map (fun rs => rs.map SwapRoute.expected_amount_out)
      (find_routes stateC7 tokA tokB 1000 rngHalf).2 = Except.ok [990]
    ∧ Except.map (fun rs => rs.map SwapRoute.expected_amount_out)
      (find_routes stateC7 tokA tokB 1000 rngOne).2 = Except.ok [994]
    ∧ (find_routes stateC7 tokA tokB 1000 rngHalf).2
        ≠ (find_routes stateC7 tokA tokB 1000 rngOne).2 := by
  have h1 : Except.map (fun rs => rs.map SwapRoute.expected_amount_out)
      (find_routes stateC7 tokA tokB 1000 rngHalf).2 = Except.ok [990] := by
    norm_num +decide [find_routes, k_shortest_paths, prepareGraph, prepEdge,
      calculate_price_impact, calculate_gas_cost, exchange_gas_adjust, lowerStr,
      lowerChar, nodeMem, successors, simplePaths, simplePathsAux, sortBy,
      insertBy, pathEdges, pathWeight, weight_function, getEdge, setEdge,
      defaultEdgeData, path_to_swap_route, buildSteps, simHopOutput, truncInt,
      lookupToken, alistGet, adjust, tweakRoute, add_pool, setPoolFields,
      tokenKey, stateC7, poolC7, emptyRouter, tokA, tokB, rngHalf,
      List.enum, List.enumFrom, calculate_risk_score, min_liquidity, reputable,
      Except.map]
  have h2 : Except.map (fun rs => rs.map SwapRoute.expected_amount_out)
      (find_routes stateC7 tokA tokB 1000 rngOne).2 = Except.ok [994] := by
    norm_num +decide [find_routes, k_shortest_paths, prepareGraph, prepEdge,
      calculate_price_impact, calculate_gas_cost, exchange_gas_adjust, lowerStr,
      lowerChar, nodeMem, successors, simplePaths, simplePathsAux, sortBy,
      insertBy, pathEdges, pathWeight, weight_function, getEdge, setEdge,
      defaultEdgeData, path_to_swap_route, buildSteps, simHopOutput, truncInt,
      lookupToken, alistGet, adjust, tweakRoute, add_pool, setPoolFields,
      tokenKey, stateC7, poolC7, emptyRouter, tokA, tokB, rngOne,
      List.enum, List.enumFrom, calculate_risk_score, min_liquidity, reputable,
      Except.map]
  refine ⟨h1, h2, ?_⟩
  intro hcon
  rw [hcon] at h1
  have h3 := h1.symm.trans h2
  simp at h3

/-- C7 amended: `find_routes` is a deterministic function of the router state,
the request, and the random stream consumed by the adjuster; moreover the
random stream influences only the adjusted outputs and the order — the
returned state and the multiset of route skeletons (steps and input amount)
are independent of it. -/
theorem C7_theorem (s : RouterState) (a b : Token) (amount : ℤ)
    (rng1 rng2 : Nat → ℚ) :
    (find_routes s a b amount rng1).1 = (find_routes s a b amount rng2).1
    ∧ (match (find_routes s a b amount rng1).2,
          (find_routes s a b amount rng2).2 with
       | Except.ok l1, Except.ok l2 =>
          (l1.map routeSkeleton).Perm (l2.map routeSkeleton)
       | Except.error e1, Except.error e2 => e1 = e2
       | _, _ => False) := by
  constructor
  · cases hres : (k_shortest_paths s.graph (tokenKey a) (tokenKey b) amount 5).2 with
    | error e => simp [find_routes, hres]
    | ok paths => by_cases hp : paths.isEmpty <;> simp [find_routes, hres, hp]
  · cases hres : (k_shortest_paths s.graph (tokenKey a) (tokenKey b) amount 5).2 with
    | error e => simp [find_routes, hres]
    | ok paths =>
      by_cases hp : paths.isEmpty
      · simp [find_routes, hres, hp]
      · simp only [find_routes, hres, hp, Bool.false_eq_true, if_false]
        exact (adjust_skeleton_perm _ rng1).trans (adjust_skeleton_perm _ rng2).symm

/-! Claim C8. -/

/-- C8 counterexample: after upserting `poolC8a` and then `poolC8b` (same
token pair, different exchange, hence different pool id), `poolC8a` is still
in the pool table but no graph edge carries its id — both directed edges
between the pair carry the id of `poolC8b` — because the `DiGraph` holds at
most one edge per directed node pair and the second upsert overwrote them. -/
theorem C8_counterexample :
    alistGet stateC8.pools (poolIdStr poolC8a) = some poolC8a
    ∧ edgesWithPool stateC8.graph (poolIdStr poolC8a) = 0
    ∧ edgesWithPool stateC8.graph (poolIdStr poolC8b) = 2 := by
  refine ⟨?_, ?_, ?_⟩ <;> decide

/-- C8 amended: immediately after upserting a pool with distinct token keys,
the two directed edges of that pool exist and are exact mirrors (swapped
reserves, reciprocal price); the invariant holds only until a later upsert on
the same ordered token pair overwrites the edges. -/
theorem C8_theorem (s : RouterState) (p : Pool)
    (h : tokenKey p.token_a ≠ tokenKey p.token_b) :
    ∃ fwd rev : EdgeData,
      getEdge (add_pool s p).graph (tokenKey p.token_a) (tokenKey p.token_b)
          = some fwd
      ∧ getEdge (add_pool s p).graph (tokenKey p.token_b) (tokenKey p.token_a)
          = some rev
      ∧ fwd.pool_id = poolIdStr p ∧ rev.pool_id = poolIdStr p
      ∧ fwd.reserve_a = p.reserve_a ∧ fwd.reserve_b = p.reserve_b
      ∧ rev.reserve_a = p.reserve_b ∧ rev.reserve_b = p.reserve_a
      ∧ fwd.price = p.price ∧ rev.price = 1 / p.price := by
  have hne2 : ((tokenKey p.token_b, tokenKey p.token_a) : String × String)
      ≠ (tokenKey p.token_a, tokenKey p.token_b) := by
    intro hcon
    exact h (congrArg Prod.snd hcon)
  refine ⟨setPoolFields (poolIdStr p) p.exchange p.fee_tier p.price p.liquidity
      p.reserve_a p.reserve_b
      (getEdge s.graph (tokenKey p.token_a) (tokenKey p.token_b)),
    setPoolFields (poolIdStr p) p.exchange p.fee_tier (1 / p.price) p.liquidity
      p.reserve_b p.reserve_a
      (getEdge (setEdge s.graph (tokenKey p.token_a) (tokenKey p.token_b)
          (setPoolFields (poolIdStr p) p.exchange p.fee_tier p.price p.liquidity
            p.reserve_a p.reserve_b))
        (tokenKey p.token_b) (tokenKey p.token_a)),
    ?_, ?_,
    setPoolFields_pool_id _ _ _ _ _ _ _ _, setPoolFields_pool_id _ _ _ _ _ _ _ _,
    setPoolFields_reserve_a _ _ _ _ _ _ _ _, setPoolFields_reserve_b _ _ _ _ _ _ _ _,
    setPoolFields_reserve_a _ _ _ _ _ _ _ _, setPoolFields_reserve_b _ _ _ _ _ _ _ _,
    setPoolFields_price _ _ _ _ _ _ _ _, setPoolFields_price _ _ _ _ _ _ _ _⟩
  · simp only [add_pool]
    rw [getEdge_setEdge_ne _ _ _ _ _ _ hne2, getEdge_setEdge_self]
  · simp only [add_pool]
    rw [getEdge_setEdge_self]

/-- C8 witness: `C8_theorem` applied to the upsert of `poolC8a` into the empty
router. -/
theorem C8_witness :
    ∃ fwd rev : EdgeData,
      getEdge (add_pool emptyRouter poolC8a).graph (tokenKey poolC8a.token_a)
          (tokenKey poolC8a.token_b) = some fwd
      ∧ getEdge (add_pool emptyRouter poolC8a).graph (tokenKey poolC8a.token_b)
          (tokenKey poolC8a.token_a) = some rev
      ∧ fwd.pool_id = poolIdStr poolC8a ∧ rev.pool_id = poolIdStr poolC8a
      ∧ fwd.reserve_a = poolC8a.reserve_a ∧ fwd.reserve_b = poolC8a.reserve_b
      ∧ rev.reserve_a = poolC8a.reserve_b ∧ rev.reserve_b = poolC8a.reserve_a
      ∧ fwd.price = poolC8a.price ∧ rev.price = 1 / poolC8a.price :=
  C8_theorem emptyRouter poolC8a (by decide)

/-! Claim C9. -/

/-- C9: upserting the same pool twice is idempotent — the pool table, token
registry, and graph (including any search attributes the edges carried) equal
the state after one upsert. -/
theorem C9_theorem (s : RouterState) (p : Pool) :
    add_pool (add_pool s p) p = add_pool s p := by
  simp only [add_pool]
  congr 1
  · exact setEdge_four_idem s.graph _ _ _ _
      (fun x => setPoolFields_absorb _ _ _ _ _ _ _ _ _ _ _ _ _ _ x)
      (fun x => setPoolFields_absorb _ _ _ _ _ _ _ _ _ _ _ _ _ _ x)
      (fun x => setPoolFields_absorb _ _ _ _ _ _ _ _ _ _ _ _ _ _ x)
  · exact dictInsert_idem s.pools (poolIdStr p) p
  · have h1 : (alistGet (registerToken (registerToken s.tokens (tokenKey p.token_a)
        p.token_a) (tokenKey p.token_b) p.token_b) (tokenKey p.token_a)).isSome
          = true :=
      alistGet_registerToken_mono _ _ _ _
        (alistGet_registerToken_isSome s.tokens (tokenKey p.token_a) p.token_a)
    have h2 : (alistGet (registerToken (registerToken s.tokens (tokenKey p.token_a)
        p.token_a) (tokenKey p.token_b) p.token_b) (tokenKey p.token_b)).isSome
          = true :=
      alistGet_registerToken_isSome _ _ _
    rw [registerToken_of_mem _ _ _ h1, registerToken_of_mem _ _ _ h2]

/-! Claim C10. -/

/-- C10 counterexample: a routing query with equal endpoints returns before
the preparation loop, leaving the graph untouched — in `stateC1`, which has
never been searched, both edges still have no `price_impact` attribute after
the call — so not every call to the path-search stage overwrites the per-edge
search attributes. -/
theorem C10_counterexample :
    (find_routes stateC1 tokA tokA 5 rngHalf).1 = stateC1
    ∧ stateC1.graph.map (fun kv => kv.2.price_impact) = [none, none] := by
  constructor
  · rfl
  · rfl

/-- C10 amended: every `find_routes` call with distinct endpoint keys replaces
the whole graph by its prepared version, overwriting `price_impact`,
`gas_cost`, and `slippage` on every edge with values derived from that call
search amount. -/
theorem C10_theorem (s : RouterState) (a b : Token) (amount : ℤ) (rng : Nat → ℚ)
    (h : tokenKey a ≠ tokenKey b) :
    (find_routes s a b amount rng).1.graph = prepareGraph s.graph amount
    ∧ ∀ e : EdgeData,
        (prepEdge amount e).price_impact
            = some (calculate_price_impact amount e.reserve_a e.reserve_b)
        ∧ (prepEdge amount e).gas_cost = some (calculate_gas_cost 1 [e.exchange])
        ∧ (prepEdge amount e).slippage = some (1 / 200) := by
  constructor
  · have hks : (k_shortest_paths s.graph (tokenKey a) (tokenKey b) amount 5).1
        = prepareGraph s.graph amount := by
      unfold k_shortest_paths
      rw [if_neg h]
      by_cases hn : (nodeMem (prepareGraph s.graph amount) (tokenKey a)
          && nodeMem (prepareGraph s.graph amount) (tokenKey b)) = true <;>
        simp [hn]
    cases hres : (k_shortest_paths s.graph (tokenKey a) (tokenKey b) amount 5).2 with
    | error e => simp [find_routes, hres, hks]
    | ok paths => by_cases hp : paths.isEmpty <;> simp [find_routes, hres, hp, hks]
  · intro e
    exact ⟨rfl, rfl, rfl⟩

/-- C10 witness: `C10_theorem` at a concrete query on `stateC1`. -/
theorem C10_witness :
    (find_routes stateC1 tokA tokB 7 rngHalf).1.graph = prepareGraph stateC1.graph 7 :=
  (C10_theorem stateC1 tokA tokB 7 rngHalf (by decide)).1
